import Mathlib

/-!
Verification of the avito-parser scan orchestrator and extractor.

This file gives a shallow embedding, in Lean 4, of the parts of the
repository `src/app` that the specification talks about:

* `database.py` — the `listings` / `houses` upsert semantics (the SQL
  `INSERT ... ON CONFLICT DO UPDATE` statements are modelled as pure
  functions on an explicit list of rows; `NOW()` is an explicit `now`
  parameter),
* `parser.py` — listing-type inference from the price postfix, the title
  regular expression, and the bounded-depth deep search over the hydration
  payload (JSON values are modelled by an inductive `JVal`),
* `scanner.py` — the scan state, the start/stop guards, and the
  per-category pagination / address-resolution / enrichment loops
  (network fetches are modelled by oracles, pacing delays by explicit
  no-op steps, and the loops are run on fuel).

Theorems at the end of the file settle the specification's claims about
these definitions.
-/

namespace AvitoParser

/-! ## Database model: the `listings` table

`src/app/database.py` creates `listings` with `item_id BIGINT PRIMARY KEY`
and the columns below.  A stored row carries the two timestamp columns;
`DOUBLE PRECISION` / `REAL` columns are modelled by `Rat`. -/

/-- One stored row of the `avito.listings` table. -/
structure ListingRow where
  item_id : Int
  address_id : Option Int
  title : Option String
  price : Option Int
  listing_type : Option String
  address : Option String
  lat : Option Rat
  lng : Option Rat
  rooms : Option Int
  area : Option Rat
  floor : Option Int
  total_floors : Option Int
  url : Option String
  raw_data : Option String
  first_seen_at : Nat
  last_seen_at : Nat
deriving Repr, DecidableEq

/-- The record passed to `upsert_listing` (the Python dict built from a
parsed search item; absent keys are `none`, as `listing.get(...)` yields
`None`). -/
structure ListingIn where
  item_id : Int
  address_id : Option Int := none
  title : Option String := none
  price : Option Int := none
  listing_type : Option String := none
  address : Option String := none
  lat : Option Rat := none
  lng : Option Rat := none
  rooms : Option Int := none
  area : Option Rat := none
  floor : Option Int := none
  total_floors : Option Int := none
  url : Option String := none
  raw_data : Option String := none
deriving Repr, DecidableEq

/-- The fresh row inserted when no row with the given `item_id` exists:
every column comes from the input record and both timestamps are `NOW()`. -/
def ListingIn.toRow (l : ListingIn) (now : Nat) : ListingRow :=
  { item_id := l.item_id, address_id := l.address_id, title := l.title,
    price := l.price, listing_type := l.listing_type, address := l.address,
    lat := l.lat, lng := l.lng, rooms := l.rooms, area := l.area,
    floor := l.floor, total_floors := l.total_floors, url := l.url,
    raw_data := l.raw_data, first_seen_at := now, last_seen_at := now }

/-- Model of `upsert_listing` (src/app/database.py, lines 238-272):

    INSERT INTO listings (...) VALUES (..., NOW(), NOW())
    ON CONFLICT (item_id) DO UPDATE SET
        price = EXCLUDED.price,
        last_seen_at = NOW()

On conflict only `price` and `last_seen_at` are written; every other
column of the existing row, `first_seen_at` included, is left alone. -/
def upsert_listing (now : Nat) (l : ListingIn) (tbl : List ListingRow) :
    List ListingRow :=
  if tbl.any (fun r => r.item_id == l.item_id) then
    tbl.map (fun r =>
      if r.item_id == l.item_id then
        { r with price := l.price, last_seen_at := now }
      else r)
  else
    tbl ++ [l.toRow now]

/-! ## Database model: the `houses` table

`houses` has `address_id INTEGER PRIMARY KEY`, the `HOUSE_FIELDS` columns,
and `created_at` / `updated_at`.  `upsert_house` builds its VALUES list by
`house.get(f)` over the whole of `HOUSE_FIELDS`, so a field that is absent
from the input dict is inserted — and, on conflict, updated — as NULL. -/

/-- One stored row of the `avito.houses` table. -/
structure HouseRow where
  address_id : Int
  slug : Option String
  address : Option String
  lat : Option Rat
  lng : Option Rat
  build_year : Option String
  floors : Option String
  heating : Option String
  hot_water : Option String
  cold_water : Option String
  electricity : Option String
  gas : Option String
  sewerage : Option String
  ventilation : Option String
  passenger_lift : Option String
  freight_lift : Option String
  house_type : Option String
  floor_type : Option String
  foundation : Option String
  energy_class : Option String
  playground : Option String
  sports_ground : Option String
  parking : Option String
  rating : Option Rat
  review_count : Option Int
  price_min : Option Int
  price_max : Option Int
  active_listings : Option Int
  raw_data : Option String
  created_at : Nat
  updated_at : Nat
deriving Repr, DecidableEq

/-- The record passed to `upsert_house`: `address_id` plus one optional
value per entry of `HOUSE_FIELDS` (a key missing from the Python dict is
`none`; `raw_data` is already the JSON-dumped string). -/
structure HouseIn where
  address_id : Int
  slug : Option String := none
  address : Option String := none
  lat : Option Rat := none
  lng : Option Rat := none
  build_year : Option String := none
  floors : Option String := none
  heating : Option String := none
  hot_water : Option String := none
  cold_water : Option String := none
  electricity : Option String := none
  gas : Option String := none
  sewerage : Option String := none
  ventilation : Option String := none
  passenger_lift : Option String := none
  freight_lift : Option String := none
  house_type : Option String := none
  floor_type : Option String := none
  foundation : Option String := none
  energy_class : Option String := none
  playground : Option String := none
  sports_ground : Option String := none
  parking : Option String := none
  rating : Option Rat := none
  review_count : Option Int := none
  price_min : Option Int := none
  price_max : Option Int := none
  active_listings : Option Int := none
  raw_data : Option String := none
deriving Repr, DecidableEq

/-- The row written for house input `h` at time `now` when the row already
existed with `created_at = created`: `ON CONFLICT (address_id) DO UPDATE
SET f = EXCLUDED.f` for every `f` in `HOUSE_FIELDS`, plus
`updated_at = NOW()`; `created_at` is not in the update list. -/
def HouseIn.toRow (h : HouseIn) (created now : Nat) : HouseRow :=
  { address_id := h.address_id, slug := h.slug, address := h.address,
    lat := h.lat, lng := h.lng, build_year := h.build_year,
    floors := h.floors, heating := h.heating, hot_water := h.hot_water,
    cold_water := h.cold_water, electricity := h.electricity,
    gas := h.gas, sewerage := h.sewerage, ventilation := h.ventilation,
    passenger_lift := h.passenger_lift, freight_lift := h.freight_lift,
    house_type := h.house_type, floor_type := h.floor_type,
    foundation := h.foundation, energy_class := h.energy_class,
    playground := h.playground, sports_ground := h.sports_ground,
    parking := h.parking, rating := h.rating,
    review_count := h.review_count, price_min := h.price_min,
    price_max := h.price_max, active_listings := h.active_listings,
    raw_data := h.raw_data, created_at := created, updated_at := now }

/-- Model of `upsert_house` (src/app/database.py, lines 155-179):

    INSERT INTO houses (address_id, <HOUSE_FIELDS>, created_at, updated_at)
    VALUES (..., NOW(), NOW())
    ON CONFLICT (address_id) DO UPDATE SET
        <f = EXCLUDED.f for every f in HOUSE_FIELDS>,
        updated_at = NOW()

Every `HOUSE_FIELDS` column of an existing row is overwritten with the
incoming value — NULL when the input dict lacks that key. -/
def upsert_house (now : Nat) (h : HouseIn) (tbl : List HouseRow) :
    List HouseRow :=
  if tbl.any (fun r => r.address_id == h.address_id) then
    tbl.map (fun r =>
      if r.address_id == h.address_id then h.toRow r.created_at now else r)
  else
    tbl ++ [h.toRow now now]

/-! ## Parser: listing type from the price postfix

`_parse_search_item` (src/app/parser.py, lines 98-170). -/

/-- Tests that `needle` occurs at the head of the haystack. -/
def chListLeads : List Char → List Char → Bool
  | [], _ => true
  | _ :: _, [] => false
  | a :: as, b :: bs => a == b && chListLeads as bs

/-- Python's `needle in haystack` (substring containment). -/
def chListHasSub (needle : List Char) : List Char → Bool
  | [] => needle.isEmpty
  | c :: rest => chListLeads needle (c :: rest) || chListHasSub needle rest

/-- Python `needle in hay` for strings. -/
def strHasSub (needle hay : String) : Bool := chListHasSub needle.data hay.data

/-- The `item.get("priceDetailed") or item.get("price")` value of a search
item: a dict carrying optional `value` / `postfix` keys, a bare number, or
anything else (absent, string, ...). -/
inductive PriceField where
  | pobj (value : Option Int) (pfx : Option String)
  | pnum (n : Int)
  | pother
deriving Repr, DecidableEq

/-- Lines 105-112: `price_text` starts as `None` and becomes
`price_detail.get("postfix", "")` exactly when the price is a dict. -/
def price_text_of : PriceField → Option String
  | .pobj _ pfx => some (pfx.getD "")
  | _ => none

/-- Lines 114-120: `listing_type` starts as `"sale"`; when `price_text` is
truthy (a non-empty string), `"/мес"` inside it gives `rent_long`, else
`"/сут"` inside it gives `rent_short`. -/
def listing_type_of_text (pt : Option String) : String :=
  match pt with
  | some t =>
    if t ≠ "" then
      if strHasSub "/мес" t then "rent_long"
      else if strHasSub "/сут" t then "rent_short"
      else "sale"
    else "sale"
  | none => "sale"

/-- The listing type `_parse_search_item` assigns from the price field. -/
def searchItemListingType (pf : PriceField) : String :=
  listing_type_of_text (price_text_of pf)

/-- The orchestrator's category override (src/app/scanner.py, lines
175-181): under the `rent` discovery category a parsed `sale` becomes
`rent_long`; in every other case the parsed type is kept. -/
def phase1ListingType (cat_name parsed : String) : String :=
  if cat_name == "rent" then
    if parsed == "sale" then "rent_long" else parsed
  else parsed

/-! ## Parser: title decomposition

Python `re.match` of the pattern `(\d+)-к.*?(\d+[.,]?\d*)\s*м.*?(\d+)/(\d+)` against the title
(src/app/parser.py, lines 147-155), embedded as a backtracking matcher
over character lists.  Candidate orders follow the regex engine: a greedy
piece offers its longest consumption first, the optional separator
prefers presence, a lazy gap offers its shortest consumption first.
`\d` / `\s` are modelled as ASCII digit / whitespace classes (every title
the pattern is meant for is ASCII-digit). -/

/-- First success of `f` along a list of candidates (backtracking order). -/
def firstSome {α β : Type} (f : α → Option β) : List α → Option β
  | [] => none
  | a :: as => match f a with | some b => some b | none => firstSome f as

/-- Class `\d`. -/
def isDigitC (c : Char) : Bool := c.isDigit

/-- Class `\s`. -/
def isSpaceC (c : Char) : Bool :=
  c == ' ' || c == '\t' || c == '\n' || c == '\r' || c == '\x0b' || c == '\x0c'

/-- Longest run of `p`-characters at the head, and the rest. -/
def spanP (p : Char → Bool) : List Char → List Char × List Char
  | [] => ([], [])
  | c :: cs =>
    if p c then
      let r := spanP p cs
      (c :: r.1, r.2)
    else ([], c :: cs)

/-- All splits of a maximal run `run` (followed by `rest`) into a consumed
prefix and the remaining input, shortest consumption first. -/
def runSplits : List Char → List Char → List (List Char × List Char)
  | [], rest => [([], rest)]
  | c :: cs, rest =>
    ([], c :: cs ++ rest) :: (runSplits cs rest).map (fun pr => (c :: pr.1, pr.2))

/-- Suffixes reachable by `.*?` (no DOTALL: `.` never crosses a newline),
shortest consumption first. -/
def lazyDotSuffixes : List Char → List (List Char)
  | [] => [[]]
  | c :: cs => (c :: cs) :: (if c == '\n' then [] else lazyDotSuffixes cs)

/-- Numeric value of a run of decimal digits (Python `int(group)`). -/
def natOfDigits (cs : List Char) : Nat :=
  cs.foldl (fun n c => 10 * n + (c.toNat - 48)) 0

/-- Pattern `(\d+)/(\d+)` anchored at `s`: both groups greedy. -/
def matchFloorFrac (s : List Char) : Option (Nat × Nat) :=
  let sp := spanP isDigitC s
  firstSome (fun pr =>
    match pr.2 with
    | '/' :: r2 =>
      let sp4 := spanP isDigitC r2
      if sp4.1.isEmpty then none
      else some (natOfDigits pr.1, natOfDigits sp4.1)
    | _ => none)
    (((runSplits sp.1 sp.2).reverse).filter (fun pr => !pr.1.isEmpty))

/-- Pattern `.*?(\d+)/(\d+)` anchored at `s`. -/
def matchFloorTail (s : List Char) : Option (Nat × Nat) :=
  firstSome matchFloorFrac (lazyDotSuffixes s)

/-- Pattern `(\d+[.,]?\d*)\s*м.*?(\d+)/(\d+)` anchored at `s`: the raw area group
and the two floor groups. -/
def matchAreaOn (s : List Char) : Option (List Char × Nat × Nat) :=
  let sp1 := spanP isDigitC s
  firstSome (fun d1 =>
    let sepOpts : List (List Char × List Char) :=
      match d1.2 with
      | c :: r2 => if c == '.' || c == ',' then [([c], r2), ([], d1.2)] else [([], d1.2)]
      | [] => [([], [])]
    firstSome (fun sep =>
      let sp2 := spanP isDigitC sep.2
      firstSome (fun d2 =>
        let sps := spanP isSpaceC d2.2
        firstSome (fun ws =>
          match ws.2 with
          | 'м' :: r6 => (matchFloorTail r6).map (fun fg => (d1.1 ++ sep.1 ++ d2.1, fg))
          | _ => none)
          ((runSplits sps.1 sps.2).reverse))
        ((runSplits sp2.1 sp2.2).reverse))
      sepOpts)
    (((runSplits sp1.1 sp1.2).reverse).filter (fun pr => !pr.1.isEmpty))

/-- The whole pattern, anchored at the start of the title (`re.match`):
rooms group, raw area group, floor group, total-floors group. -/
def titleMatch (s : List Char) : Option (Nat × List Char × Nat × Nat) :=
  let sp := spanP isDigitC s
  firstSome (fun d1 =>
    match d1.2 with
    | '-' :: 'к' :: r2 =>
      firstSome (fun suf => (matchAreaOn suf).map (fun t => (natOfDigits d1.1, t)))
        (lazyDotSuffixes r2)
    | _ => none)
    (((runSplits sp.1 sp.2).reverse).filter (fun pr => !pr.1.isEmpty))

/-- Python `float(group2.replace(",", "."))` for a group matched by
`\d+[.,]?\d*`, as the exact decimal value (the Python float is the
nearest double to this rational; we keep the exact value). -/
def ratOfAreaChars (cs : List Char) : Rat :=
  let cs' := cs.map (fun c => if c == ',' then '.' else c)
  let ip := spanP isDigitC cs'
  match ip.2 with
  | '.' :: fp => (natOfDigits ip.1 : Rat) + (natOfDigits fp : Rat) / ((10 : Rat) ^ fp.length)
  | _ => (natOfDigits ip.1 : Rat)

/-- The title-decomposition fragment of `_parse_search_item`
(src/app/parser.py, lines 147-155): on a match, the four groups become
rooms / area / floor / total_floors; otherwise all four keep their `None`
defaults.  This fragment cannot raise: a failed `re.match` just returns
`None`. -/
def parseTitleFields (title : String) :
    Option Int × Option Rat × Option Int × Option Int :=
  match titleMatch title.data with
  | some t =>
    (some (t.1 : Int), some (ratOfAreaChars t.2.1),
     some (t.2.2.1 : Int), some (t.2.2.2 : Int))
  | none => (none, none, none, none)

/-! ## Parser: house characteristics and the bounded deep search

`parse_house_page` / `_extract_house_field` / `_deep_search_house_fields`
(src/app/parser.py, lines 250-381).  The decoded hydration payload is a
JSON value, modelled by `JVal`. -/

mutual

/-- A decoded JSON value.  Objects and arrays carry their own member
lists (`JMems` / `JElems`) so that every traversal below is structural. -/
inductive JVal where
  | jstr (s : String)
  | jnum (n : Int)
  | jbool (b : Bool)
  | jnull
  | jobj (mems : JMems)
  | jarr (elems : JElems)

/-- The key/value members of a JSON object, in insertion order. -/
inductive JMems where
  | nil
  | cons (key : String) (val : JVal) (rest : JMems)

/-- The elements of a JSON array. -/
inductive JElems where
  | nil
  | cons (val : JVal) (rest : JElems)

end

/-- Object members from an association list (a literal-building helper). -/
def jm : List (String × JVal) → JMems
  | [] => .nil
  | p :: rest => .cons p.1 p.2 (jm rest)

/-- Array elements from a list (a literal-building helper). -/
def je : List JVal → JElems
  | [] => .nil
  | v :: rest => .cons v (je rest)

/-- The object has no members. -/
def JMems.isNil : JMems → Bool
  | .nil => true
  | .cons _ _ _ => false

/-- The array has no elements. -/
def JElems.isNil : JElems → Bool
  | .nil => true
  | .cons _ _ => false

/-- The number of elements (Python `len`). -/
def JElems.length : JElems → Nat
  | .nil => 0
  | .cons _ rest => 1 + JElems.length rest

/-- Python truthiness of a decoded JSON value. -/
def jTruthy : JVal → Bool
  | .jstr s => !(s == "")
  | .jnum n => !(n == 0)
  | .jbool b => b
  | .jnull => false
  | .jobj f => !f.isNil
  | .jarr e => !e.isNil

/-- Python `d.get(k)` on a dict: `none` models Python `None` for a missing key
(keys are unique in a decoded JSON dict, so first match is the match). -/
def jget : JMems → String → Option JVal
  | .nil, _ => none
  | .cons k v rest, key => if k == key then some v else jget rest key

/-- Python `a or b` where `a` is a `d.get(k)` result (`None` when missing) and
`b` is an already-computed value. -/
def pyOrV (a : Option JVal) (b : JVal) : JVal :=
  match a with
  | some v => if jTruthy v then v else b
  | none => b

/-- Python `d.get(k1) or d.get(k2)`: the whole thing is `None` when both fail. -/
def pyOrN (a b : Option JVal) : Option JVal :=
  match a with
  | some v => if jTruthy v then some v else b
  | none => b

/-- Python `val or default` collapsing Python `None` to the value. -/
def pyVal (o : Option JVal) : JVal := o.getD .jnull

/-- Python `str(value)` for the values the extractor stores.  (For a dict or a
list Python would render the container's repr; no characteristic payload
puts a container in a `value` field, and no claim depends on that case.) -/
def jToStr : JVal → String
  | .jstr s => s
  | .jnum n => toString n
  | .jbool b => if b then "True" else "False"
  | .jnull => "None"
  | .jobj _ => "<dict>"
  | .jarr _ => "<list>"

/-- Model of `HOUSE_FIELD_MAP` (src/app/parser.py, lines 250-269): Russian label →
column name. -/
def HOUSE_FIELD_MAP : List (String × String) :=
  [("Год постройки", "build_year"), ("Этажей", "floors"),
   ("Отопление", "heating"), ("Горячее водоснабжение", "hot_water"),
   ("Холодное водоснабжение", "cold_water"),
   ("Электроснабжение", "electricity"), ("Газоснабжение", "gas"),
   ("Канализация", "sewerage"), ("Система вентиляции", "ventilation"),
   ("Пассажирский лифт", "passenger_lift"),
   ("Грузовой лифт", "freight_lift"), ("Тип дома", "house_type"),
   ("Перекрытия", "floor_type"), ("Фундамент", "foundation"),
   ("Класс энергоэффективности", "energy_class"),
   ("Детская площадка", "playground"),
   ("Спортивная площадка", "sports_ground"), ("Парковка", "parking")]

/-- Python `HOUSE_FIELD_MAP.get(title)`. -/
def houseFieldOf (title : String) : Option String :=
  (HOUSE_FIELD_MAP.find? (fun p => p.1 == title)).map (fun p => p.2)

/-- The extraction result: an insertion-ordered dict, column → value. -/
abbrev HRes := List (String × JVal)

/-- Python `result[k] = v` on a Python dict: an existing key keeps its position
and gets the new value; a new key is appended. -/
def hset (r : HRes) (k : String) (v : JVal) : HRes :=
  if r.any (fun p => p.1 == k) then
    r.map (fun p => if p.1 == k then (k, v) else p)
  else r ++ [(k, v)]

/-- Python `result.update(other)`: `other`'s entries are set one by one in order. -/
def hmerge (r other : HRes) : HRes :=
  other.foldl (fun acc p => hset acc p.1 p.2) r

/-- The title/value test of `_deep_search_house_fields` (lines 365-368 and
374-377): `title = val.get("title") or val.get("name", "")`, `value =
val.get("value") or val.get("description", "")`, matched when the title
is a `HOUSE_FIELD_MAP` key and the value is truthy; the stored value is
`str(value)`.  (A truthy non-string title would make Python's
`title in HOUSE_FIELD_MAP` raise only for unhashable titles, which no
payload produces; a non-matching hashable title just fails the test.) -/
def dsMatch (f : JMems) : Option (String × String) :=
  match pyOrV (jget f "title") ((jget f "name").getD (.jstr "")) with
  | .jstr t =>
    match houseFieldOf t with
    | some col =>
      let v := pyOrV (jget f "value") ((jget f "description").getD (.jstr ""))
      if jTruthy v then some (col, jToStr v) else none
    | none => none
  | _ => none

mutual

/-- The `for key, val in data.items()` loop of
`_deep_search_house_fields`, threading the one `result` dict: a dict
child is either recorded (title/value match) or recursed into at
`depth + 1`; a list child has its dict elements treated the same way;
scalar children are skipped.  The callee's depth guard is checked here,
at the call site (updating with the empty dict a guarded callee would
return is a no-op), which keeps the recursion structural. -/
def dsEntries : JMems → Nat → HRes → HRes
  | .nil, _, acc => acc
  | .cons _ v rest, depth, acc =>
    let acc2 :=
      match v with
      | .jobj f2 =>
        match dsMatch f2 with
        | some p => hset acc p.1 (.jstr p.2)
        | none =>
          if 5 < depth + 1 then acc
          else hmerge acc (dsEntries f2 (depth + 1) [])
      | .jarr items => dsItems items depth acc
      | _ => acc
    dsEntries rest depth acc2

/-- The `for item in val` inner loop over a list child (non-dict items
are skipped; lists nested directly in lists are not walked). -/
def dsItems : JElems → Nat → HRes → HRes
  | .nil, _, acc => acc
  | .cons item rest, depth, acc =>
    let acc2 :=
      match item with
      | .jobj f2 =>
        match dsMatch f2 with
        | some p => hset acc p.1 (.jstr p.2)
        | none =>
          if 5 < depth + 1 then acc
          else hmerge acc (dsEntries f2 (depth + 1) [])
      | _ => acc
    dsItems rest depth acc2

end

/-- Model of `_deep_search_house_fields(data, depth)` (src/app/parser.py, lines
355-381): an empty result above depth 5, else the walk over the dict's
entries starting from the empty result. -/
def deepSearchHouse (fields : JMems) (depth : Nat) : HRes :=
  if 5 < depth then [] else dsEntries fields depth []

/-- Model of `_extract_house_field(item, result)` (src/app/parser.py, lines
342-352): title from `title`/`name`/`label`, value from
`value`/`description`/`text`; both must be truthy; the title is looked up
in `HOUSE_FIELD_MAP` and, on a hit, `str(value)` is stored.  (A truthy
non-string title is never a map key — Python would only raise for an
unhashable one, which no payload produces.) -/
def extractHouseField (item : JMems) (result : HRes) : HRes :=
  let title := pyOrV (jget item "title")
    (pyOrV (jget item "name") ((jget item "label").getD (.jstr "")))
  let value := pyOrV (jget item "value")
    (pyOrV (jget item "description") ((jget item "text").getD (.jstr "")))
  if !jTruthy title || !jTruthy value then result
  else
    match title with
    | .jstr t =>
      match houseFieldOf t with
      | some col => hset result col (.jstr (jToStr value))
      | none => result
    | _ => result

/-- The loop `for item in items: _extract_house_field(item, result)` (a non-dict
item would raise in Python; the payloads hold dicts only). -/
def houseItemsFold : JElems → HRes → HRes
  | .nil, result => result
  | .cons it rest, result =>
    houseItemsFold rest
      (match it with
       | .jobj f => extractHouseField f result
       | _ => result)

/-- The sections loop: each dict section's `items` list (default `[]`,
skipped when not a list) is folded with `_extract_house_field`. -/
def houseSectionsFold : JElems → HRes → HRes
  | .nil, result => result
  | .cons sec rest, result =>
    houseSectionsFold rest
      (match sec with
       | .jobj sf =>
         match jget sf "items" with
         | some (.jarr sitems) => houseItemsFold sitems result
         | _ => result
       | _ => result)

/-- Model of `parse_house_page` after hydration decoding and loader resolution
(src/app/parser.py, lines 283-339).  In order: the
`houseInfo`/`house`/`aboutHouse` container's `items` then `sections`; the
`aboutHouseBlock`/`aboutHouse` sections only when the result is still
empty; the depth-bounded deep search only when the result is still empty;
then rating, price range and active-listings reads; `None` when the
result dict ends up empty. -/
def parseHousePage (loader : JMems) : Option HRes :=
  let house_info := pyOrN (jget loader "houseInfo")
    (pyOrN (jget loader "house") (jget loader "aboutHouse"))
  let r1 : HRes :=
    match house_info with
    | some (.jobj hf) =>
      let ra :=
        match jget hf "items" with
        | some (.jarr its) => houseItemsFold its []
        | _ => []
      match jget hf "sections" with
      | some (.jarr secs) => houseSectionsFold secs ra
      | _ => ra
    | _ => []
  let about_block := pyOrN (jget loader "aboutHouseBlock") (jget loader "aboutHouse")
  let r2 :=
    match about_block with
    | some (.jobj af) =>
      if r1.isEmpty then
        match jget af "sections" with
        | some (.jarr secs) => houseSectionsFold secs r1
        | _ => r1
      else r1
    | _ => r1
  let r3 := if r2.isEmpty then deepSearchHouse loader 0 else r2
  let r4 :=
    match pyOrN (jget loader "rating") (jget loader "houseRating") with
    | some (.jobj rf) =>
      let rr := hset r3 "rating" (pyVal (pyOrN (jget rf "value") (jget rf "score")))
      hset rr "review_count" (pyVal (pyOrN (jget rf "count") (jget rf "reviewCount")))
    | _ => r3
  let r5 :=
    match pyOrN (jget loader "priceRange") (jget loader "priceSummary") with
    | some (.jobj pf) =>
      let rp := hset r4 "price_min" (pyVal (pyOrN (jget pf "min") (jget pf "minPrice")))
      hset rp "price_max" (pyVal (pyOrN (jget pf "max") (jget pf "maxPrice")))
    | _ => r4
  let r6 :=
    match pyOrN (jget loader "listings") (jget loader "activeListings") with
    | some (.jobj lf) =>
      hset r5 "active_listings" (pyVal (pyOrN (jget lf "total") (jget lf "count")))
    | some (.jarr xs) => hset r5 "active_listings" (.jnum (xs.length : Int))
    | _ => r5
  if r6.isEmpty then none else some r6

/-! ## Scan orchestrator

`src/app/scanner.py`.  The global `scan_state` dict (minus its lock — the
lock only serialises access and carries no data) is `ScanSt`; network
fetches are oracles; `asyncio.sleep` pacing delays do not change any
modelled state and appear as plain control-flow points; `NOW()` is an
explicit `now`. -/

/-- The `scan_state` fields (src/app/scanner.py, lines 21-36). -/
structure ScanSt where
  status : String
  phase : Option String
  category : Option String
  total_pages : Nat
  done_pages : Nat
  total_houses : Nat
  done_houses : Nat
  new_houses : Nat
  listings_found : Nat
  errors : Nat
  started_at : Option Nat
  message : Option String
  stop_requested : Bool
deriving Repr, DecidableEq

/-- Model of `request_stop` (src/app/scanner.py, lines 57-63): under the lock, a
running scan gets the flag and a message and `True` is returned; in every
other status nothing is written and `False` is returned (the API layer
turns `False` into the 400 "No scan running" reply). -/
def request_stop (s : ScanSt) : ScanSt × Bool :=
  if s.status == "running" then
    ({ s with stop_requested := true,
              message := some "Stop requested, finishing current operation..." },
     true)
  else (s, false)

/-- The start guard and reset of `run_full_scan` (src/app/scanner.py,
lines 80-96): an already-running scan is left untouched and the start is
rejected (`False`); otherwise every counter is reset, `started_at` and
the message are set, and the status becomes `running`. -/
def scan_start (now : Nat) (s : ScanSt) : ScanSt × Bool :=
  if s.status == "running" then (s, false)
  else
    ({ status := "running", phase := none, category := none,
       total_pages := 0, done_pages := 0, total_houses := 0,
       done_houses := 0, new_houses := 0, listings_found := 0, errors := 0,
       started_at := some now, message := some "Starting scan...",
       stop_requested := false }, true)

/-- The terminal status `run_full_scan` writes when no exception escaped
(src/app/scanner.py, lines 107-109 and 115): `stopped` exactly when the
stop flag is observed set, else `completed`. -/
def run_terminal_status (stop_requested : Bool) : String :=
  if stop_requested then "stopped" else "completed"

/-- Outcome of `fetch_search_page` + `parse_search_page` for one page:
`fail` is a fetch that returned `None`; `page items` is a fetched page
whose extraction yielded `items`. -/
inductive FetchR where
  | fail
  | page (items : List ListingIn)

/-- Why the per-category pagination loop stopped. -/
inductive P1Exit where
  | stopExit   -- stop_requested observed at the loop head
  | abandoned  -- consecutive-error threshold reached
  | pagesDone  -- a fetched page extracted zero items: end of pagination
  | fuelOut    -- artificial: model fuel exhausted
deriving Repr, DecidableEq

/-- State of `_run_phase1`'s per-category `while True` loop together with
the scan-state counters and the listings table it touches.  `fetched`
records the page numbers fetched, in order; `iter` counts loop-head stop
checks.  (The write-only progress strings — `message`, `category` — feed
nothing back into control flow and are not carried.) -/
structure P1St where
  page : Nat
  consecutive_errors : Nat
  done_pages : Nat
  listings_found : Nat
  errors : Nat
  db : List ListingRow
  fetched : List Nat
  iter : Nat
deriving Repr, DecidableEq

/-- The `for item in items` body (src/app/scanner.py, lines 168-186): a
falsy `item_id` (0) is skipped; the listing type defaults to `"sale"`, the
rent-category override is applied and stored back; the item is upserted
(upsert exceptions are logged and swallowed — the model's upsert is
total). -/
def processItems (cat_name : String) (now : Nat) (items : List ListingIn)
    (db : List ListingRow) : List ListingRow :=
  items.foldl (fun d item =>
    if item.item_id == 0 then d
    else
      let lt := phase1ListingType cat_name (item.listing_type.getD "sale")
      upsert_listing now { item with listing_type := some lt } d) db

/-- One iteration of the per-category pagination loop (src/app/scanner.py,
lines 143-200).  `stopF i` is the value the stop flag is observed to have
at the i-th loop-head check; `fetch p` the fetch+parse outcome for page
`p`.  `.inl` exits the loop, `.inr` continues with the next state.  On a
fetch failure the error counter grows, the threshold is tested, and —
below the threshold — the loop sleeps and moves to `page + 1`.  On a
fetched page with zero items the loop breaks with no counter change.  On
a page with items the error counter resets, the items are processed, the
counters grow, and the loop moves to `page + 1`. -/
def p1Step (maxErr : Nat) (cat_name : String) (now : Nat)
    (stopF : Nat → Bool) (fetch : Nat → FetchR) (st : P1St) :
    (P1St × P1Exit) ⊕ P1St :=
  if stopF st.iter then .inl (st, .stopExit)
  else
    match fetch st.page with
    | .fail =>
      let e := st.consecutive_errors + 1
      let st' := { st with consecutive_errors := e,
                           fetched := st.fetched ++ [st.page],
                           iter := st.iter + 1 }
      if maxErr ≤ e then .inl (st', .abandoned)
      else .inr { st' with page := st.page + 1 }
    | .page items =>
      let st' := { st with fetched := st.fetched ++ [st.page],
                           iter := st.iter + 1 }
      if items.isEmpty then .inl (st', .pagesDone)
      else
        .inr { st' with
               consecutive_errors := 0,
               db := processItems cat_name now items st.db,
               listings_found := st.listings_found + items.length,
               done_pages := st.done_pages + 1,
               page := st.page + 1 }

/-- The pagination loop on fuel. -/
def p1Run (maxErr : Nat) (cat_name : String) (now : Nat)
    (stopF : Nat → Bool) (fetch : Nat → FetchR) :
    Nat → P1St → P1St × P1Exit
  | 0, st => (st, .fuelOut)
  | fuel + 1, st =>
    match p1Step maxErr cat_name now stopF fetch st with
    | .inl r => r
    | .inr st' => p1Run maxErr cat_name now stopF fetch fuel st'

/-- The loop state a category starts with (src/app/scanner.py, lines
140-141): `consecutive_errors = 0`, `page = 1`. -/
def p1Start (s : ScanSt) (db : List ListingRow) : P1St :=
  { page := 1, consecutive_errors := 0, done_pages := s.done_pages,
    listings_found := s.listings_found, errors := s.errors, db := db,
    fetched := [], iter := 0 }

/-! ### Address resolution (`_collect_address_ids`, lines 209-277) -/

/-- The part of `parse_listing_page`'s result the resolution loop reads. -/
structure AData where
  address_id : Option Int := none
  slug : Option String := none
  address : Option String := none
  lat : Option Rat := none
  lng : Option Rat := none
deriving Repr, DecidableEq

/-- Outcome of `fetch_listing_page` + `parse_listing_page` for one
listing: `fail` is a fetch that returned `None`; `html data` a fetched
page with its parse result (`none` when no hydration/loader/buyer item). -/
inductive LFetchR where
  | fail
  | html (data : Option AData)

/-- Why the resolution loop stopped. -/
inductive ArExit where
  | stopExit   -- stop_requested observed before an item
  | abandoned  -- consecutive-error threshold reached
  | listDone   -- the row list was exhausted
deriving Repr, DecidableEq

/-- State of the resolution loop: the error counter, both tables, the
trace of item ids fetched, and the stop-check counter. -/
structure ArSt where
  consecutive_errors : Nat
  listings : List ListingRow
  houses : List HouseRow
  attempted : List Int
  iter : Nat
deriving Repr, DecidableEq

/-- Model of the `_collect_address_ids` `for idx, row in enumerate(rows)` loop
(src/app/scanner.py, lines 229-277), over the queue of `item_id`s whose
listing has no `address_id` (ordered by `item_id`).  On a fetch failure
the error counter grows, the threshold is tested and — below it — the
loop sleeps and `continue`s with the NEXT row.  On a fetched page the
counter resets; a parse result with a truthy `address_id` updates the
listing row and pre-creates (upserts) a minimal house record carrying
only identity/address/coords. -/
def arRun (maxErr : Nat) (now : Nat) (stopF : Nat → Bool)
    (fetchL : Int → LFetchR) : List Int → ArSt → ArSt × ArExit
  | [], st => (st, .listDone)
  | item_id :: rest, st =>
    if stopF st.iter then (st, .stopExit)
    else
      match fetchL item_id with
      | .fail =>
        let e := st.consecutive_errors + 1
        let st' := { st with consecutive_errors := e,
                             attempted := st.attempted ++ [item_id],
                             iter := st.iter + 1 }
        if maxErr ≤ e then (st', .abandoned)
        else arRun maxErr now stopF fetchL rest st'
      | .html data =>
        let st0 := { st with consecutive_errors := 0,
                             attempted := st.attempted ++ [item_id],
                             iter := st.iter + 1 }
        let st' :=
          match data with
          | some d =>
            if (match d.address_id with
                | some a => !(a == 0)
                | none => false) then
              let aid := d.address_id.getD 0
              { st0 with
                listings := st0.listings.map (fun r =>
                  if r.item_id == item_id then { r with address_id := some aid }
                  else r),
                houses := upsert_house now
                  { address_id := aid, slug := some (d.slug.getD ""),
                    address := d.address, lat := d.lat, lng := d.lng }
                  st0.houses }
            else st0
          | none => st0
        arRun maxErr now stopF fetchL rest st'

/-! ### Phase 2: enrichment (`_run_phase2`, lines 280-357) -/

/-- Outcome of `fetch_house_page` + `parse_house_page` for one house.
`html data` carries the house record the loop would build from the parse
result (`none` when `parse_house_page` returned no data); the parse→
record conversion itself is exercised by the parser theorems, not by the
loop. -/
inductive HFetchR where
  | fail
  | html (data : Option HouseIn)

/-- Why the enrichment loop stopped. -/
inductive P2Exit where
  | stopExit
  | abandoned
  | listDone
deriving Repr, DecidableEq

/-- State of the enrichment loop.  (`done_houses` and the message are
write-only progress reporting and are not carried.) -/
structure P2St where
  consecutive_errors : Nat
  new_houses : Nat
  errors : Nat
  houses : List HouseRow
  attempted : List Int
  iter : Nat
deriving Repr, DecidableEq

/-- Model of the `_run_phase2` `for idx, row in enumerate(rows)` loop
(src/app/scanner.py, lines 304-354), over the queue of `(address_id,
slug)` rows with `build_year IS NULL AND house_type IS NULL`.  On a fetch
failure both the error counter and the `errors` count grow, the threshold
is tested and — below it — the loop sleeps and `continue`s with the NEXT
row.  On a fetched page the counter resets; a parse with data has
`address_id`, `slug` stamped in and is upserted, bumping `new_houses`; a
parse with no data records a progress-event error and bumps `errors`
without touching the consecutive-error counter. -/
def p2Run (maxErr : Nat) (now : Nat) (stopF : Nat → Bool)
    (fetchH : Int → HFetchR) : List (Int × String) → P2St → P2St × P2Exit
  | [], st => (st, .listDone)
  | (aid, slug) :: rest, st =>
    if stopF st.iter then (st, .stopExit)
    else
      match fetchH aid with
      | .fail =>
        let e := st.consecutive_errors + 1
        let st' := { st with consecutive_errors := e,
                             errors := st.errors + 1,
                             attempted := st.attempted ++ [aid],
                             iter := st.iter + 1 }
        if maxErr ≤ e then (st', .abandoned)
        else p2Run maxErr now stopF fetchH rest st'
      | .html data =>
        let st0 := { st with consecutive_errors := 0,
                             attempted := st.attempted ++ [aid],
                             iter := st.iter + 1 }
        let st' :=
          match data with
          | some hd =>
            { st0 with
              houses := upsert_house now
                { hd with address_id := aid, slug := some slug } st0.houses,
              new_houses := st0.new_houses + 1 }
          | none => { st0 with errors := st0.errors + 1 }
        p2Run maxErr now stopF fetchH rest st'

/-! ## Theorems -/

/-- When a row with the incoming `item_id` exists, `upsert_listing` takes
the conflict branch: every row is kept, with only the matching row's
`price` and `last_seen_at` rewritten. -/
lemma upsert_listing_conflict (now : Nat) (l : ListingIn)
    (tbl : List ListingRow)
    (hany : tbl.any (fun r => r.item_id == l.item_id) = true) :
    upsert_listing now l tbl = tbl.map (fun r =>
      if r.item_id == l.item_id then
        { r with price := l.price, last_seen_at := now }
      else r) := by
  simp only [upsert_listing, hany, if_true]

/-- With id-distinct rows, filtering the conflict-updated table down to
the incoming id leaves exactly the updated copy of the pre-existing row. -/
lemma upsert_listing_filter_eq (now : Nat) (l : ListingIn) :
    ∀ (tbl : List ListingRow) (r : ListingRow), r ∈ tbl →
    r.item_id = l.item_id →
    (tbl.map (fun s => s.item_id)).Nodup →
    (tbl.map (fun s =>
      if s.item_id == l.item_id then
        { s with price := l.price, last_seen_at := now }
      else s)).filter (fun s => s.item_id == l.item_id) =
    [{ r with price := l.price, last_seen_at := now }] := by
  intro tbl
  induction tbl with
  | nil => intro r hr _ _; exact absurd hr (List.not_mem_nil r)
  | cons a as ih =>
    intro r hr hid hnd
    rw [List.map_cons] at hnd
    have hhead : a.item_id ∉ as.map (fun s => s.item_id) :=
      (List.nodup_cons.mp hnd).1
    have hnd' : (as.map (fun s => s.item_id)).Nodup :=
      (List.nodup_cons.mp hnd).2
    rw [List.map_cons, List.filter_cons]
    rcases List.mem_cons.mp hr with hra | hras
    · subst hra
      have hzero : (as.map (fun s =>
          if s.item_id == l.item_id then
            { s with price := l.price, last_seen_at := now }
          else s)).filter (fun s => s.item_id == l.item_id) = [] := by
        rw [List.filter_eq_nil_iff]
        intro s hs
        rw [List.mem_map] at hs
        obtain ⟨t, ht, hts⟩ := hs
        have htne : t.item_id ≠ l.item_id := by
          intro he
          have hm : t.item_id ∈ as.map (fun s => s.item_id) :=
            List.mem_map_of_mem (fun s => s.item_id) ht
          rw [he, ← hid] at hm
          exact hhead hm
        have hf : (t.item_id == l.item_id) = false :=
          beq_eq_false_iff_ne.mpr htne
        rw [hf] at hts
        simp only [Bool.false_eq_true, if_false] at hts
        subst hts
        simp [htne]
      simp only [hzero, hid, beq_self_eq_true, if_true]
    · have hane : a.item_id ≠ l.item_id := by
        intro he
        exact hhead (by
          rw [he, ← hid]
          simpa using List.mem_map_of_mem (fun s => s.item_id) hras)
      have hfa : (a.item_id == l.item_id) = false :=
        beq_eq_false_iff_ne.mpr hane
      simp only [hfa, Bool.false_eq_true, if_false, hane]
      exact ih r hras hid hnd'

/-- C3.  Upserting a listing whose `item_id` already exists (here with a
different price) leaves exactly one stored row for that id — the old row
with `price` replaced by the incoming price and `last_seen_at` replaced
by the write time, its `first_seen_at` untouched. -/
theorem upsert_listing_existing_id_single_row (now : Nat) (l : ListingIn)
    (tbl : List ListingRow) (r : ListingRow) (hr : r ∈ tbl)
    (hid : r.item_id = l.item_id) (hprice : r.price ≠ l.price)
    (hnd : (tbl.map (fun s => s.item_id)).Nodup) :
    (upsert_listing now l tbl).filter (fun s => s.item_id == l.item_id) =
      [{ r with price := l.price, last_seen_at := now }] ∧
    (upsert_listing now l tbl).length = tbl.length := by
  have hany : tbl.any (fun s => s.item_id == l.item_id) = true := by
    rw [List.any_eq_true]
    exact ⟨r, hr, by simp [hid]⟩
  rw [upsert_listing_conflict now l tbl hany]
  exact ⟨upsert_listing_filter_eq now l tbl r hr hid hnd, by simp⟩

/-- A listing row as first stored (sale, price 100, seen at time 10). -/
def c3Row : ListingRow :=
  { item_id := 7452416585, address_id := none, title := some "2-к. квартира",
    price := some 100, listing_type := some "sale",
    address := some "Фестивальная ул., 56", lat := none, lng := none,
    rooms := some 2, area := none, floor := some 5, total_floors := some 12,
    url := some "/kvartiry/2-k._kvartira", raw_data := none,
    first_seen_at := 10, last_seen_at := 10 }

/-- A later observation of the same listing with a different price. -/
def c3In : ListingIn :=
  { item_id := 7452416585, title := some "2-к. квартира",
    price := some 200, listing_type := some "rent_long" }

/-- Witness for C3 at a concrete table. -/
theorem upsert_listing_existing_id_single_row_witness :
    (upsert_listing 42 c3In [c3Row]).filter
      (fun s => s.item_id == c3In.item_id) =
      [{ c3Row with price := c3In.price, last_seen_at := 42 }] ∧
    (upsert_listing 42 c3In [c3Row]).length = [c3Row].length :=
  upsert_listing_existing_id_single_row 42 c3In [c3Row] c3Row
    (by simp) (by decide) (by decide) (by decide)

/-- C10.  Re-upserting an existing listing id is a pure
price/last-seen-at update: the table keeps its length, rows with other
ids are kept as they are, and the row with the incoming id keeps every
other field — title, address id, listing type, address, coordinates,
rooms, area, floor, total floors, url, raw payload, first-seen — from
the first observation, whatever the new record carries. -/
theorem upsert_listing_existing_id_frame (now : Nat) (l : ListingIn)
    (tbl : List ListingRow) (r : ListingRow) (hr : r ∈ tbl)
    (hid : r.item_id = l.item_id)
    (hnd : (tbl.map (fun s => s.item_id)).Nodup) :
    (upsert_listing now l tbl).length = tbl.length ∧
    ∀ s ∈ upsert_listing now l tbl,
      (s.item_id ≠ l.item_id → s ∈ tbl) ∧
      (s.item_id = l.item_id →
        s.price = l.price ∧ s.last_seen_at = now ∧
        s.title = r.title ∧ s.address_id = r.address_id ∧
        s.listing_type = r.listing_type ∧ s.address = r.address ∧
        s.lat = r.lat ∧ s.lng = r.lng ∧ s.rooms = r.rooms ∧
        s.area = r.area ∧ s.floor = r.floor ∧
        s.total_floors = r.total_floors ∧ s.url = r.url ∧
        s.raw_data = r.raw_data ∧ s.first_seen_at = r.first_seen_at) := by
  have hany : tbl.any (fun s => s.item_id == l.item_id) = true := by
    rw [List.any_eq_true]
    exact ⟨r, hr, by simp [hid]⟩
  rw [upsert_listing_conflict now l tbl hany]
  refine ⟨by simp, ?_⟩
  intro s hs
  rw [List.mem_map] at hs
  obtain ⟨t, ht, hts⟩ := hs
  by_cases h : t.item_id = l.item_id
  · have hteq : t = r :=
      List.inj_on_of_nodup_map hnd ht hr (by rw [h, hid])
    subst hteq
    rw [show (t.item_id == l.item_id) = true by simp [h]] at hts
    simp only [if_true] at hts
    subst hts
    simp [h]
  · rw [show (t.item_id == l.item_id) = false from
      beq_eq_false_iff_ne.mpr h] at hts
    simp only [Bool.false_eq_true, if_false] at hts
    subst hts
    exact ⟨fun _ => ht, fun he => absurd he h⟩

/-- A listing row as first stored, for the C10 witness. -/
def c10Row : ListingRow :=
  { item_id := 99, address_id := some 307170, title := some "Студия",
    price := some 15000, listing_type := some "rent_long",
    address := some "Первомайская ул., 1", lat := some 56, lng := some 47,
    rooms := some 1, area := some 25, floor := some 3,
    total_floors := some 9, url := some "/kvartiry/studiya",
    raw_data := some "\x7b\x7d", first_seen_at := 5, last_seen_at := 5 }

/-- A re-observation of the same id under a different category. -/
def c10In : ListingIn :=
  { item_id := 99, title := some "Студия (изменено)", price := some 16000,
    listing_type := some "sale", address := some "другой адрес" }

/-- Witness for C10 at a concrete table. -/
theorem upsert_listing_existing_id_frame_witness :
    (upsert_listing 77 c10In [c10Row]).length = [c10Row].length :=
  (upsert_listing_existing_id_frame 77 c10In [c10Row] c10Row
    (by simp) (by decide) (by decide)).1

/-- A house row that has been enriched: address data from the pre-create
pass and characteristics from an enrichment pass are all set. -/
def c2Enriched : HouseRow :=
  { address_id := 307170, slug := some "festivalnaya_ul_56",
    address := some "Фестивальная ул., 56", lat := some 56, lng := some 47,
    build_year := some "1990", floors := some "12",
    heating := some "Центральное", hot_water := some "Центральное",
    cold_water := some "Центральное", electricity := some "Центральное",
    gas := some "Центральное", sewerage := some "Центральное",
    ventilation := some "Приточная", passenger_lift := some "1",
    freight_lift := some "0", house_type := some "Кирпичный",
    floor_type := some "Железобетонные", foundation := some "Ленточный",
    energy_class := some "B", playground := some "Есть",
    sports_ground := some "Нет", parking := some "Во дворе",
    rating := some 4, review_count := some 12, price_min := some 1500000,
    price_max := some 4200000, active_listings := some 7,
    raw_data := some "\x7b\x7d", created_at := 100, updated_at := 150 }

/-- The minimal pre-create record `_collect_address_ids` builds
(src/app/scanner.py, lines 264-273): only identity/address/coords keys. -/
def c2PreCreate : HouseIn :=
  { address_id := 307170, slug := some "festivalnaya_ul_56",
    address := some "Фестивальная ул., 56", lat := some 56, lng := some 47 }

/-- An enrichment record as `_run_phase2` builds it (src/app/scanner.py,
lines 331-337): parsed characteristics plus `address_id`/`slug`/
`raw_data` — no `address`, `lat` or `lng` keys. -/
def c2Enrich : HouseIn :=
  { address_id := 307170, slug := some "festivalnaya_ul_56",
    build_year := some "1990", house_type := some "Кирпичный",
    raw_data := some "\x7b\x7d" }

/-- C2 fails on the code: `upsert_house` updates every `HOUSE_FIELDS`
column to the incoming (`EXCLUDED`) value, so a minimal pre-create
overwrites previously-set characteristics with NULL, and an enrichment
write overwrites the previously-set address/coordinates with NULL.  Both
clobbers are exhibited on one-row tables. -/
theorem upsert_house_partial_input_nulls_fields :
    c2Enriched.heating = some "Центральное" ∧
    c2Enriched.build_year = some "1990" ∧
    upsert_house 200 c2PreCreate [c2Enriched] =
      [c2PreCreate.toRow 100 200] ∧
    (c2PreCreate.toRow 100 200).heating = none ∧
    (c2PreCreate.toRow 100 200).build_year = none ∧
    c2Enriched.address = some "Фестивальная ул., 56" ∧
    upsert_house 200 c2Enrich [c2Enriched] = [c2Enrich.toRow 100 200] ∧
    (c2Enrich.toRow 100 200).address = none ∧
    (c2Enrich.toRow 100 200).lat = none := by
  refine ⟨rfl, rfl, ?_, rfl, rfl, rfl, ?_, rfl, rfl⟩ <;> decide

/-- C4.  For a search item whose price is a dict with postfix `pt`
(considered in the code's order): a postfix containing the per-month
marker `"/мес"` parses as `rent_long`; otherwise one containing the
per-day marker `"/сут"` parses as `rent_short`; otherwise the item parses
as `sale` (as do a bare-number price and a missing price).  The
orchestrator's override rewrites exactly a parsed `sale` under the
`"rent"` discovery category, and rewrites it to `rent_long`. -/
theorem search_item_listing_type_classification (pt : String)
    (v : Option Int) (n : Int) (cat parsed : String) :
    (strHasSub "/мес" pt = true →
      searchItemListingType (.pobj v (some pt)) = "rent_long") ∧
    (strHasSub "/мес" pt = false → strHasSub "/сут" pt = true →
      searchItemListingType (.pobj v (some pt)) = "rent_short") ∧
    (strHasSub "/мес" pt = false → strHasSub "/сут" pt = false →
      searchItemListingType (.pobj v (some pt)) = "sale") ∧
    searchItemListingType (.pnum n) = "sale" ∧
    searchItemListingType .pother = "sale" ∧
    phase1ListingType "rent" "sale" = "rent_long" ∧
    (cat ≠ "rent" → phase1ListingType cat parsed = parsed) ∧
    (parsed ≠ "sale" → phase1ListingType cat parsed = parsed) := by
  refine ⟨?_, ?_, ?_, rfl, rfl, rfl, ?_, ?_⟩
  · intro hm
    have hne : pt ≠ "" := by
      intro h
      rw [h] at hm
      exact absurd hm (by decide)
    simp [searchItemListingType, price_text_of, listing_type_of_text, hne, hm]
  · intro hm hd
    have hne : pt ≠ "" := by
      intro h
      rw [h] at hd
      exact absurd hd (by decide)
    simp [searchItemListingType, price_text_of, listing_type_of_text,
      hne, hm, hd]
  · intro hm hd
    by_cases hne : pt = ""
    · simp [searchItemListingType, price_text_of, listing_type_of_text, hne]
    · simp [searchItemListingType, price_text_of, listing_type_of_text,
        hne, hm, hd]
  · intro hc
    simp only [phase1ListingType, beq_iff_eq]
    rw [if_neg hc]
  · intro hp
    simp only [phase1ListingType, beq_iff_eq]
    by_cases hc : cat = "rent"
    · rw [if_pos hc, if_neg hp]
    · rw [if_neg hc]

/-- Witness for C4 at concrete postfixes and categories. -/
theorem search_item_listing_type_classification_witness :
    searchItemListingType (.pobj (some 15000) (some "15 000 ₽/мес.")) =
      "rent_long" ∧
    searchItemListingType (.pobj (some 2000) (some "2 000 ₽/сут.")) =
      "rent_short" ∧
    searchItemListingType (.pobj (some 3500000) (some "3 500 000 ₽")) =
      "sale" ∧
    phase1ListingType "sale" "sale" = "sale" ∧
    phase1ListingType "rent" "rent_short" = "rent_short" :=
  ⟨(search_item_listing_type_classification "15 000 ₽/мес."
      (some 15000) 0 "x" "x").1 (by decide),
   (search_item_listing_type_classification "2 000 ₽/сут."
      (some 2000) 0 "x" "x").2.1 (by decide) (by decide),
   (search_item_listing_type_classification "3 500 000 ₽"
      (some 3500000) 0 "x" "x").2.2.1 (by decide) (by decide),
   (search_item_listing_type_classification "" none 0 "sale"
      "sale").2.2.2.2.2.2.1 (by decide),
   (search_item_listing_type_classification "" none 0 "rent"
      "rent_short").2.2.2.2.2.2.2 (by decide)⟩

/-- C6 fails as stated: the pattern's fixed text is Cyrillic
(`-к`, `м`), so the claim's sample input "2-room apartment, 54,3 m²,
5/12 fl." does not match — all four fields stay unset instead of the
claimed rooms=2, area=54.3, floor=5, totalFloors=12. -/
theorem parse_title_english_sample_no_match :
    parseTitleFields "2-room apartment, 54,3 m², 5/12 fl." =
      (none, none, none, none) := by decide

/-- C6 amended.  On the pattern's own shape — the Russian
"2-к. квартира, 54,3 м², 5/12 эт." — title decomposition yields rooms=2,
area=54.3 (comma decimal normalised to a dot), floor=5, totalFloors=12;
and on every title the pattern does not match, all four fields are left
unset (the fragment is total — nothing is raised). -/
theorem parse_title_decomposition :
    parseTitleFields "2-к. квартира, 54,3 м², 5/12 эт." =
      (some 2, some ((543 : Rat) / 10), some 5, some 12) ∧
    ∀ t : String, titleMatch t.data = none →
      parseTitleFields t = (none, none, none, none) := by
  constructor
  · have hm : titleMatch "2-к. квартира, 54,3 м², 5/12 эт.".data =
        some (2, ['5', '4', ',', '3'], 5, 12) := by decide
    have h1 : (['5', '4', ',', '3'].map
        (fun c => if c == ',' then '.' else c)) = ['5', '4', '.', '3'] := by
      decide
    have h2 : spanP isDigitC ['5', '4', '.', '3'] =
        (['5', '4'], ['.', '3']) := by decide
    have h3 : natOfDigits ['5', '4'] = 54 := by decide
    have h4 : natOfDigits ['3'] = 3 := by decide
    simp only [parseTitleFields, hm, ratOfAreaChars, h1, h2, h3, h4]
    norm_num
  · intro t h
    simp [parseTitleFields, h]

/-- Witness for the amended C6 at a concrete non-matching title. -/
theorem parse_title_decomposition_witness :
    parseTitleFields "Студия, 25 м², 3/9 эт." = (none, none, none, none) :=
  parse_title_decomposition.2 "Студия, 25 м², 3/9 эт." (by decide)

/-- A `{title, value}` heating pair, the shape the deep search matches. -/
def c7HeatPair : JVal :=
  .jobj (jm [("title", .jstr "Отопление"), ("value", .jstr "Центральное")])

/-- A payload with no recognized characteristics container and the
heating pair nested three dict levels deep. -/
def c7Deep3 : JMems :=
  jm [("a", .jobj (jm [("b", .jobj (jm [("c", c7HeatPair)]))]))]

/-- A one-member wrapper dict. -/
def c7Wrap (k : String) (v : JVal) : JVal := .jobj (jm [(k, v)])

/-- A payload whose heating pair sits past the depth bound: six wrapper
dicts, so the pair's dict is reached only by a recursive call at depth 6,
which the `depth > 5` guard cuts off. -/
def c7TooDeep : JMems :=
  jm [("k1", c7Wrap "k2" (c7Wrap "k3" (c7Wrap "k4" (c7Wrap "k5"
    (c7Wrap "k6" (c7Wrap "k7" c7HeatPair))))))]

/-- A payload with a recognized `houseInfo` container (yielding heating)
plus a nested gas pair that only the deep search would find. -/
def c7Container : JMems :=
  jm [("houseInfo", .jobj (jm [("items", .jarr (je [c7HeatPair]))])),
      ("misc", .jobj (jm [("x", .jobj (jm [("title", .jstr "Газоснабжение"),
        ("value", .jstr "Есть")]))]))]

/-- C7.  The bounded deep search: with no recognized container, a heating
pair three levels deep is still extracted; a pair past the depth bound is
not searched (the page parses to nothing); and the fallback only runs
when the containers produced an empty result — on `c7Container` the deep
search alone would also find the nested gas pair, but the parsed result
holds only the container's heating field. -/
theorem parse_house_deep_search_fallback :
    parseHousePage c7Deep3 = some [("heating", .jstr "Центральное")] ∧
    parseHousePage c7TooDeep = none ∧
    deepSearchHouse c7Container 0 =
      [("heating", .jstr "Центральное"), ("gas", .jstr "Есть")] ∧
    parseHousePage c7Container = some [("heating", .jstr "Центральное")] :=
  ⟨rfl, rfl, rfl, rfl⟩

/-- With every fetch failing and no stop request, the discovery loop
abandons the category after exactly `maxErr - st.consecutive_errors`
further attempts, made on consecutively advancing pages. -/
lemma p1Run_all_fail (maxErr : Nat) (cat : String) (now : Nat) :
    ∀ (fuel : Nat) (st : P1St), st.consecutive_errors < maxErr →
    maxErr - st.consecutive_errors ≤ fuel →
    (p1Run maxErr cat now (fun _ => false) (fun _ => .fail) fuel st).2 =
        .abandoned ∧
    (p1Run maxErr cat now (fun _ => false) (fun _ => .fail) fuel
        st).1.fetched =
      st.fetched ++ List.range' st.page (maxErr - st.consecutive_errors) ∧
    (p1Run maxErr cat now (fun _ => false) (fun _ => .fail) fuel
        st).1.consecutive_errors = maxErr := by
  intro fuel
  induction fuel with
  | zero => intro st h1 h2; omega
  | succ f ih =>
    intro st h1 h2
    by_cases hth : maxErr ≤ st.consecutive_errors + 1
    · have hk : maxErr - st.consecutive_errors = 1 := by omega
      have hm : st.consecutive_errors + 1 = maxErr := by omega
      simp only [p1Run, p1Step, Bool.false_eq_true, if_false]
      simp [hth, hk, hm, List.range'_one]
    · have hstep : p1Run maxErr cat now (fun _ => false) (fun _ => .fail)
          (f + 1) st =
        p1Run maxErr cat now (fun _ => false) (fun _ => .fail) f
          { st with consecutive_errors := st.consecutive_errors + 1,
                    fetched := st.fetched ++ [st.page],
                    iter := st.iter + 1, page := st.page + 1 } := by
        simp only [p1Run, p1Step, Bool.false_eq_true, if_false]
        rw [if_neg hth]
      have h1' : st.consecutive_errors + 1 < maxErr := by omega
      have goal := ih
        { st with consecutive_errors := st.consecutive_errors + 1,
                  fetched := st.fetched ++ [st.page],
                  iter := st.iter + 1, page := st.page + 1 }
        (by simpa using h1') (by simp; omega)
      simp only at goal
      rw [hstep]
      refine ⟨goal.1, ?_, goal.2.2⟩
      rw [goal.2.1]
      have hk : maxErr - st.consecutive_errors =
          (maxErr - (st.consecutive_errors + 1)) + 1 := by omega
      rw [hk, List.range'_succ]
      simp

/-- With every fetch failing and no stop request, the resolution loop
abandons the queue after exactly `maxErr - st.consecutive_errors` further
attempts, each on the next queued item. -/
lemma arRun_all_fail (maxErr now : Nat) :
    ∀ (rows : List Int) (st : ArSt), st.consecutive_errors < maxErr →
    maxErr - st.consecutive_errors ≤ rows.length →
    (arRun maxErr now (fun _ => false) (fun _ => .fail) rows st).2 =
        .abandoned ∧
    (arRun maxErr now (fun _ => false) (fun _ => .fail) rows
        st).1.attempted =
      st.attempted ++ rows.take (maxErr - st.consecutive_errors) ∧
    (arRun maxErr now (fun _ => false) (fun _ => .fail) rows
        st).1.consecutive_errors = maxErr := by
  intro rows
  induction rows with
  | nil => intro st h1 h2; simp at h2; omega
  | cons i rest ih =>
    intro st h1 h2
    by_cases hth : maxErr ≤ st.consecutive_errors + 1
    · have hk : maxErr - st.consecutive_errors = 1 := by omega
      have hm : st.consecutive_errors + 1 = maxErr := by omega
      simp only [arRun, Bool.false_eq_true, if_false]
      simp [hth, hk, hm]
    · have hstep : arRun maxErr now (fun _ => false) (fun _ => .fail)
          (i :: rest) st =
        arRun maxErr now (fun _ => false) (fun _ => .fail) rest
          { st with consecutive_errors := st.consecutive_errors + 1,
                    attempted := st.attempted ++ [i],
                    iter := st.iter + 1 } := by
        simp only [arRun, Bool.false_eq_true, if_false]
        rw [if_neg hth]
      have goal := ih
        { st with consecutive_errors := st.consecutive_errors + 1,
                  attempted := st.attempted ++ [i], iter := st.iter + 1 }
        (by simp; omega) (by simp at h2 ⊢; omega)
      simp only at goal
      rw [hstep]
      refine ⟨goal.1, ?_, goal.2.2⟩
      rw [goal.2.1]
      have hk : maxErr - st.consecutive_errors =
          (maxErr - (st.consecutive_errors + 1)) + 1 := by omega
      rw [hk, List.take_succ_cons]
      simp

/-- With every fetch failing and no stop request, the enrichment loop
abandons the queue after exactly `maxErr - st.consecutive_errors` further
attempts, each on the next queued house, counting every failure in
`errors` as well. -/
lemma p2Run_all_fail (maxErr now : Nat) :
    ∀ (rows : List (Int × String)) (st : P2St),
    st.consecutive_errors < maxErr →
    maxErr - st.consecutive_errors ≤ rows.length →
    (p2Run maxErr now (fun _ => false) (fun _ => .fail) rows st).2 =
        .abandoned ∧
    (p2Run maxErr now (fun _ => false) (fun _ => .fail) rows
        st).1.attempted =
      st.attempted ++
        (rows.take (maxErr - st.consecutive_errors)).map (fun r => r.1) ∧
    (p2Run maxErr now (fun _ => false) (fun _ => .fail) rows
        st).1.consecutive_errors = maxErr ∧
    (p2Run maxErr now (fun _ => false) (fun _ => .fail) rows
        st).1.errors =
      st.errors + (maxErr - st.consecutive_errors) := by
  intro rows
  induction rows with
  | nil => intro st h1 h2; simp at h2; omega
  | cons r rest ih =>
    intro st h1 h2
    obtain ⟨aid, slug⟩ := r
    by_cases hth : maxErr ≤ st.consecutive_errors + 1
    · have hk : maxErr - st.consecutive_errors = 1 := by omega
      have hm : st.consecutive_errors + 1 = maxErr := by omega
      simp only [p2Run, Bool.false_eq_true, if_false]
      simp [hth, hk, hm]
    · have hstep : p2Run maxErr now (fun _ => false) (fun _ => .fail)
          ((aid, slug) :: rest) st =
        p2Run maxErr now (fun _ => false) (fun _ => .fail) rest
          { st with consecutive_errors := st.consecutive_errors + 1,
                    errors := st.errors + 1,
                    attempted := st.attempted ++ [aid],
                    iter := st.iter + 1 } := by
        simp only [p2Run, Bool.false_eq_true, if_false]
        rw [if_neg hth]
      have goal := ih
        { st with consecutive_errors := st.consecutive_errors + 1,
                  errors := st.errors + 1,
                  attempted := st.attempted ++ [aid], iter := st.iter + 1 }
        (by simp; omega) (by simp at h2 ⊢; omega)
      simp only at goal
      rw [hstep]
      refine ⟨goal.1, ?_, goal.2.2.1, ?_⟩
      · rw [goal.2.1]
        have hk : maxErr - st.consecutive_errors =
            (maxErr - (st.consecutive_errors + 1)) + 1 := by omega
        rw [hk, List.take_succ_cons]
        simp
      · rw [goal.2.2.2]
        omega

/-- A fetch schedule whose page 1 fails and whose later pages succeed
with no items. -/
def c1Fetch : Nat → FetchR := fun p => if p == 1 then .fail else .page []

/-- The loop state a category starts with: page 1, zero errors. -/
def c1St : P1St :=
  { page := 1, consecutive_errors := 0, done_pages := 0,
    listings_found := 0, errors := 0, db := [], fetched := [], iter := 0 }

/-- C1 fails as stated: after the fetch failure on page 1 the discovery
loop does NOT retry page 1 — its next fetch is page 2 (the trace of
fetched pages is `[1, 2]`, not `[1, 1, ...]`), and the category ends by
pagination, not after `MAX_CONSECUTIVE_ERRORS = 5` attempts on the same
page. -/
theorem phase1_fetch_failure_not_retried :
    (p1Run 5 "sale" 0 (fun _ => false) c1Fetch 10 c1St).1.fetched =
      [1, 2] ∧
    (p1Run 5 "sale" 0 (fun _ => false) c1Fetch 10 c1St).2 = .pagesDone :=
  ⟨rfl, rfl⟩

/-- C1 amended.  In all three passes, a fetch failure advances to the
next page/item after the pacing delay (the same page/item is not
retried); the current category/queue is abandoned after exactly
`MAX_CONSECUTIVE_ERRORS` consecutive fetch failures (the failure that
reaches the threshold abandons, one below it continues); and the
consecutive-error counter is reset to zero by a successful fetch (in
discovery, by a successful fetch with items — a successful empty fetch
ends the pagination instead). -/
theorem consecutive_error_policy (maxErr now : Nat) (cat : String)
    (stopF : Nat → Bool) (fetch : Nat → FetchR) (fetchL : Int → LFetchR)
    (fetchH : Int → HFetchR) (st : P1St) (ast : ArSt) (pst : P2St)
    (i aid : Int) (slug : String) (restL : List Int)
    (restH : List (Int × String)) (items : List ListingIn) (fuel : Nat)
    (rowsL : List Int) (rowsH : List (Int × String)) :
    (stopF st.iter = false → fetch st.page = .fail →
      st.consecutive_errors + 1 < maxErr →
      p1Step maxErr cat now stopF fetch st = .inr
        { st with consecutive_errors := st.consecutive_errors + 1,
                  fetched := st.fetched ++ [st.page],
                  iter := st.iter + 1, page := st.page + 1 }) ∧
    (stopF st.iter = false → fetch st.page = .fail →
      maxErr ≤ st.consecutive_errors + 1 →
      p1Step maxErr cat now stopF fetch st = .inl
        ({ st with consecutive_errors := st.consecutive_errors + 1,
                   fetched := st.fetched ++ [st.page],
                   iter := st.iter + 1 }, .abandoned)) ∧
    (stopF st.iter = false → fetch st.page = .page items → items ≠ [] →
      p1Step maxErr cat now stopF fetch st = .inr
        { st with consecutive_errors := 0,
                  db := processItems cat now items st.db,
                  listings_found := st.listings_found + items.length,
                  done_pages := st.done_pages + 1,
                  fetched := st.fetched ++ [st.page],
                  iter := st.iter + 1, page := st.page + 1 }) ∧
    (st.consecutive_errors < maxErr →
      maxErr - st.consecutive_errors ≤ fuel →
      (p1Run maxErr cat now (fun _ => false) (fun _ => .fail) fuel
          st).2 = .abandoned ∧
      (p1Run maxErr cat now (fun _ => false) (fun _ => .fail) fuel
          st).1.fetched =
        st.fetched ++
          List.range' st.page (maxErr - st.consecutive_errors)) ∧
    (stopF ast.iter = false → fetchL i = .fail →
      ast.consecutive_errors + 1 < maxErr →
      arRun maxErr now stopF fetchL (i :: restL) ast =
        arRun maxErr now stopF fetchL restL
          { ast with consecutive_errors := ast.consecutive_errors + 1,
                     attempted := ast.attempted ++ [i],
                     iter := ast.iter + 1 }) ∧
    (stopF ast.iter = false → fetchL i = .fail →
      maxErr ≤ ast.consecutive_errors + 1 →
      arRun maxErr now stopF fetchL (i :: restL) ast =
        ({ ast with consecutive_errors := ast.consecutive_errors + 1,
                    attempted := ast.attempted ++ [i],
                    iter := ast.iter + 1 }, .abandoned)) ∧
    (stopF ast.iter = false → fetchL i = .html none →
      arRun maxErr now stopF fetchL (i :: restL) ast =
        arRun maxErr now stopF fetchL restL
          { ast with consecutive_errors := 0,
                     attempted := ast.attempted ++ [i],
                     iter := ast.iter + 1 }) ∧
    (ast.consecutive_errors < maxErr →
      maxErr - ast.consecutive_errors ≤ rowsL.length →
      (arRun maxErr now (fun _ => false) (fun _ => .fail) rowsL
          ast).2 = .abandoned ∧
      (arRun maxErr now (fun _ => false) (fun _ => .fail) rowsL
          ast).1.attempted =
        ast.attempted ++ rowsL.take (maxErr - ast.consecutive_errors)) ∧
    (stopF pst.iter = false → fetchH aid = .fail →
      pst.consecutive_errors + 1 < maxErr →
      p2Run maxErr now stopF fetchH ((aid, slug) :: restH) pst =
        p2Run maxErr now stopF fetchH restH
          { pst with consecutive_errors := pst.consecutive_errors + 1,
                     errors := pst.errors + 1,
                     attempted := pst.attempted ++ [aid],
                     iter := pst.iter + 1 }) ∧
    (stopF pst.iter = false → fetchH aid = .fail →
      maxErr ≤ pst.consecutive_errors + 1 →
      p2Run maxErr now stopF fetchH ((aid, slug) :: restH) pst =
        ({ pst with consecutive_errors := pst.consecutive_errors + 1,
                    errors := pst.errors + 1,
                    attempted := pst.attempted ++ [aid],
                    iter := pst.iter + 1 }, .abandoned)) ∧
    (stopF pst.iter = false → fetchH aid = .html none →
      p2Run maxErr now stopF fetchH ((aid, slug) :: restH) pst =
        p2Run maxErr now stopF fetchH restH
          { pst with consecutive_errors := 0, errors := pst.errors + 1,
                     attempted := pst.attempted ++ [aid],
                     iter := pst.iter + 1 }) ∧
    (pst.consecutive_errors < maxErr →
      maxErr - pst.consecutive_errors ≤ rowsH.length →
      (p2Run maxErr now (fun _ => false) (fun _ => .fail) rowsH
          pst).2 = .abandoned ∧
      (p2Run maxErr now (fun _ => false) (fun _ => .fail) rowsH
          pst).1.attempted =
        pst.attempted ++
          (rowsH.take (maxErr - pst.consecutive_errors)).map
            (fun r => r.1)) := by
  refine ⟨?_, ?_, ?_, ?_, ?_, ?_, ?_, ?_, ?_, ?_, ?_, ?_⟩
  · intro hs hf hlt
    simp only [p1Step, hs, hf, Bool.false_eq_true, if_false]
    rw [if_neg (by omega)]
  · intro hs hf hge
    simp only [p1Step, hs, hf, Bool.false_eq_true, if_false]
    rw [if_pos hge]
  · intro hs hf hne
    simp only [p1Step, hs, hf, Bool.false_eq_true, if_false]
    rw [if_neg (by simpa [List.isEmpty_iff] using hne)]
  · intro h1 h2
    exact ⟨(p1Run_all_fail maxErr cat now fuel st h1 h2).1,
      (p1Run_all_fail maxErr cat now fuel st h1 h2).2.1⟩
  · intro hs hf hlt
    simp only [arRun, hs, hf, Bool.false_eq_true, if_false]
    rw [if_neg (by omega)]
  · intro hs hf hge
    simp only [arRun, hs, hf, Bool.false_eq_true, if_false]
    rw [if_pos hge]
  · intro hs hf
    simp only [arRun, hs, hf, Bool.false_eq_true, if_false]
  · intro h1 h2
    exact ⟨(arRun_all_fail maxErr now rowsL ast h1 h2).1,
      (arRun_all_fail maxErr now rowsL ast h1 h2).2.1⟩
  · intro hs hf hlt
    simp only [p2Run, hs, hf, Bool.false_eq_true, if_false]
    rw [if_neg (by omega)]
  · intro hs hf hge
    simp only [p2Run, hs, hf, Bool.false_eq_true, if_false]
    rw [if_pos hge]
  · intro hs hf
    simp only [p2Run, hs, hf, Bool.false_eq_true, if_false]
  · intro h1 h2
    exact ⟨(p2Run_all_fail maxErr now rowsH pst h1 h2).1,
      (p2Run_all_fail maxErr now rowsH pst h1 h2).2.1⟩

/-- Witness for the amended C1: with the default threshold 5 and every
fetch failing, the discovery loop starting at page 1 with a zeroed
counter abandons the category with the page trace `[1, 2, 3, 4, 5]` —
exactly five attempts, on advancing pages. -/
theorem consecutive_error_policy_witness :
    (p1Run 5 "sale" 0 (fun _ => false) (fun _ => .fail) 8 c1St).2 =
      .abandoned ∧
    (p1Run 5 "sale" 0 (fun _ => false) (fun _ => .fail) 8
      c1St).1.fetched = [1, 2, 3, 4, 5] :=
  ⟨((consecutive_error_policy 5 0 "sale" (fun _ => false)
      (fun _ => .fail) (fun _ => .fail) (fun _ => .fail) c1St
      { consecutive_errors := 0, listings := [], houses := [],
        attempted := [], iter := 0 }
      { consecutive_errors := 0, new_houses := 0, errors := 0,
        houses := [], attempted := [], iter := 0 }
      0 0 "" [] [] [] 8 [] []).2.2.2.1 (by decide) (by decide)).1,
   by
    rw [((consecutive_error_policy 5 0 "sale" (fun _ => false)
      (fun _ => .fail) (fun _ => .fail) (fun _ => .fail) c1St
      { consecutive_errors := 0, listings := [], houses := [],
        attempted := [], iter := 0 }
      { consecutive_errors := 0, new_houses := 0, errors := 0,
        houses := [], attempted := [], iter := 0 }
      0 0 "" [] [] [] 8 [] []).2.2.2.1 (by decide) (by decide)).2]
    rfl⟩

/-- C5.  A page whose fetch succeeds but whose extraction yields zero
items exits the pagination loop for the category with `.pagesDone` (the
normal termination signal, after which `_run_phase1` moves to the next
category): the consecutive-error counter, the error count and every
other counter are left exactly as they were — only the fetch trace and
the check counter grow. -/
theorem phase1_empty_page_ends_pagination (maxErr now : Nat)
    (cat : String) (stopF : Nat → Bool) (fetch : Nat → FetchR)
    (st : P1St) (hstop : stopF st.iter = false)
    (hfetch : fetch st.page = .page []) :
    p1Step maxErr cat now stopF fetch st =
      .inl ({ st with fetched := st.fetched ++ [st.page],
                      iter := st.iter + 1 }, .pagesDone) ∧
    ({ st with fetched := st.fetched ++ [st.page],
               iter := st.iter + 1 } : P1St).consecutive_errors =
      st.consecutive_errors ∧
    ({ st with fetched := st.fetched ++ [st.page],
               iter := st.iter + 1 } : P1St).errors = st.errors ∧
    ({ st with fetched := st.fetched ++ [st.page],
               iter := st.iter + 1 } : P1St).done_pages = st.done_pages ∧
    ({ st with fetched := st.fetched ++ [st.page],
               iter := st.iter + 1 } : P1St).listings_found =
      st.listings_found := by
  refine ⟨?_, rfl, rfl, rfl, rfl⟩
  simp only [p1Step, hstop, hfetch, Bool.false_eq_true, if_false,
    List.isEmpty_nil, if_true]

/-- Witness for C5 at a concrete loop state. -/
theorem phase1_empty_page_ends_pagination_witness :
    p1Step 5 "rent" 9 (fun _ => false) (fun _ => .page [])
      { page := 3, consecutive_errors := 2, done_pages := 2,
        listings_found := 10, errors := 1, db := [], fetched := [1, 2],
        iter := 4 } =
      .inl ({ page := 3, consecutive_errors := 2, done_pages := 2,
              listings_found := 10, errors := 1, db := [],
              fetched := [1, 2, 3], iter := 5 }, .pagesDone) :=
  (phase1_empty_page_ends_pagination 5 9 "rent" (fun _ => false)
    (fun _ => .page [])
    { page := 3, consecutive_errors := 2, done_pages := 2,
      listings_found := 10, errors := 1, db := [], fetched := [1, 2],
      iter := 4 } rfl rfl).1

/-- C8.  Requesting stop outside `running` returns `False` — the API's
"nothing to stop" — and leaves the scan state untouched; requesting stop
while running sets the flag (plus the progress message) and returns
`True`; a loop whose stop check reads `true` exits immediately with
`.stopExit`, fetching nothing further; and the run's terminal status
under an observed stop flag is `stopped`. -/
theorem stop_request_semantics (s r : ScanSt) (maxErr now : Nat)
    (cat : String) (stopF : Nat → Bool) (fetch : Nat → FetchR)
    (st : P1St) (hidle : s.status ≠ "running")
    (hrun : r.status = "running") (hseen : stopF st.iter = true) :
    request_stop s = (s, false) ∧
    request_stop r =
      ({ r with stop_requested := true,
                message :=
                  some "Stop requested, finishing current operation..." },
       true) ∧
    p1Step maxErr cat now stopF fetch st = .inl (st, .stopExit) ∧
    run_terminal_status true = "stopped" ∧
    run_terminal_status false = "completed" := by
  refine ⟨?_, ?_, ?_, rfl, rfl⟩
  · simp only [request_stop, beq_iff_eq]
    rw [if_neg hidle]
  · simp only [request_stop, beq_iff_eq]
    rw [if_pos hrun]
  · simp only [p1Step, hseen, if_true]

/-- Witness for C8 at concrete states. -/
theorem stop_request_semantics_witness :
    request_stop
      { status := "idle", phase := none, category := none,
        total_pages := 0, done_pages := 0, total_houses := 0,
        done_houses := 0, new_houses := 0, listings_found := 0,
        errors := 0, started_at := none, message := none,
        stop_requested := false } =
      ({ status := "idle", phase := none, category := none,
         total_pages := 0, done_pages := 0, total_houses := 0,
         done_houses := 0, new_houses := 0, listings_found := 0,
         errors := 0, started_at := none, message := none,
         stop_requested := false }, false) ∧
    p1Step 5 "sale" 0 (fun _ => true) (fun _ => .fail) c1St =
      .inl (c1St, .stopExit) :=
  ⟨(stop_request_semantics
      { status := "idle", phase := none, category := none,
        total_pages := 0, done_pages := 0, total_houses := 0,
        done_houses := 0, new_houses := 0, listings_found := 0,
        errors := 0, started_at := none, message := none,
        stop_requested := false }
      { status := "running", phase := none, category := none,
        total_pages := 0, done_pages := 0, total_houses := 0,
        done_houses := 0, new_houses := 0, listings_found := 0,
        errors := 0, started_at := none, message := none,
        stop_requested := false }
      5 0 "sale" (fun _ => true) (fun _ => .fail) c1St
      (by decide) rfl rfl).1,
   (stop_request_semantics
      { status := "idle", phase := none, category := none,
        total_pages := 0, done_pages := 0, total_houses := 0,
        done_houses := 0, new_houses := 0, listings_found := 0,
        errors := 0, started_at := none, message := none,
        stop_requested := false }
      { status := "running", phase := none, category := none,
        total_pages := 0, done_pages := 0, total_houses := 0,
        done_houses := 0, new_houses := 0, listings_found := 0,
        errors := 0, started_at := none, message := none,
        stop_requested := false }
      5 0 "sale" (fun _ => true) (fun _ => .fail) c1St
      (by decide) rfl rfl).2.2.1⟩

/-- C9.  A start request while a scan is `running` is rejected — `False`,
the "already running" signal — and mutates no field; a start request in
any other status resets every counter and flag and sets the status to
`running`.  The guard is what keeps at most one scan running at a time. -/
theorem scan_start_guard (now : Nat) (s t : ScanSt)
    (hrun : s.status = "running") (hnot : t.status ≠ "running") :
    scan_start now s = (s, false) ∧
    scan_start now t =
      ({ status := "running", phase := none, category := none,
         total_pages := 0, done_pages := 0, total_houses := 0,
         done_houses := 0, new_houses := 0, listings_found := 0,
         errors := 0, started_at := some now,
         message := some "Starting scan...",
         stop_requested := false }, true) := by
  constructor
  · simp only [scan_start, beq_iff_eq]
    rw [if_pos hrun]
  · simp only [scan_start, beq_iff_eq]
    rw [if_neg hnot]

/-- Witness for C9 at concrete states. -/
theorem scan_start_guard_witness :
    (scan_start 11
      { status := "running", phase := some "phase1_search",
        category := some "sale", total_pages := 0, done_pages := 4,
        total_houses := 0, done_houses := 0, new_houses := 0,
        listings_found := 120, errors := 1, started_at := some 3,
        message := some "Phase 1...", stop_requested := false }).2 =
      false ∧
    (scan_start 11
      { status := "completed", phase := none, category := none,
        total_pages := 0, done_pages := 9, total_houses := 4,
        done_houses := 4, new_houses := 2, listings_found := 300,
        errors := 0, started_at := some 3, message := some "done",
        stop_requested := false }).2 = true := by
  constructor
  · rw [(scan_start_guard 11
      { status := "running", phase := some "phase1_search",
        category := some "sale", total_pages := 0, done_pages := 4,
        total_houses := 0, done_houses := 0, new_houses := 0,
        listings_found := 120, errors := 1, started_at := some 3,
        message := some "Phase 1...", stop_requested := false }
      { status := "completed", phase := none, category := none,
        total_pages := 0, done_pages := 9, total_houses := 4,
        done_houses := 4, new_houses := 2, listings_found := 300,
        errors := 0, started_at := some 3, message := some "done",
        stop_requested := false } rfl (by decide)).1]
  · rw [(scan_start_guard 11
      { status := "running", phase := some "phase1_search",
        category := some "sale", total_pages := 0, done_pages := 4,
        total_houses := 0, done_houses := 0, new_houses := 0,
        listings_found := 120, errors := 1, started_at := some 3,
        message := some "Phase 1...", stop_requested := false }
      { status := "completed", phase := none, category := none,
        total_pages := 0, done_pages := 9, total_houses := 4,
        done_houses := 4, new_houses := 2, listings_found := 300,
        errors := 0, started_at := some 3, message := some "done",
        stop_requested := false } rfl (by decide)).2]

end AvitoParser
